import Mathlib

/-!
Shallow embedding of the HealthPredict dashboard (src/app.py) and proofs
about its record store, risk banding, model-confidence display, preventive
tips and consistency check.

Conventions of the embedding:
* real-valued vitals and scores are rationals (`ℚ`);
* a raised Python exception is an `Except.error`;
* the external pre-trained classifier is a `BinaryClassifier` record whose
  two methods may themselves raise;
* each Streamlit `st.write`/`st.success`/... call that depends on decision
  logic is modelled by the value it would display.
-/

namespace HealthPredict

/-- One row of the loaded dataset, the columns `show_dashboard` reads
(src/app.py lines 124-135, 144, 153-155, 205-216, 226-241). -/
structure Visit where
  patient : Int
  date : Nat
  age : Nat
  gender : String
  heightCm : ℚ
  weightKg : ℚ
  bmi : ℚ
  systolicBP : ℚ
  diastolicBP : ℚ
  heartRate : ℚ
  smokingStatus : String
  diabetes : Bool
  hyperlipidemia : Bool
  heartDisease : Nat
  healthScore : ℚ
deriving DecidableEq, Repr

/-- ASCII lower-casing applied character by character, as Python's
`str.lower()` acts on the dataset's ASCII category labels
(src/app.py lines 211, 236). -/
def pyLower (s : String) : String := ⟨s.data.map Char.toLower⟩

/-- Python's substring test `needle in hay` on strings: some suffix of the
haystack starts with the needle. -/
def containsSub (needle : List Char) : List Char → Bool
  | [] => needle.isPrefixOf []
  | c :: rest => needle.isPrefixOf (c :: rest) || containsSub needle (rest)

/-- The smoking test `"current" in str(x).lower()`
(src/app.py lines 211 and 236). -/
def smokingCurrent (s : String) : Bool :=
  containsSub "current".data (pyLower s).data

/-- Health-score donut colour
(src/app.py line 145: green if score >= 80, amber if >= 60, else red). -/
def scoreColor (score : ℚ) : String :=
  if score ≥ 80 then "#4caf50" else if score ≥ 60 then "#ffa94d" else "#ff4d4d"

/-- The single-row feature table built for the model, fields in the fixed
order of src/app.py lines 153-155. -/
structure InputRow where
  heightCm : ℚ
  weightKg : ℚ
  bmi : ℚ
  systolicBP : ℚ
  diastolicBP : ℚ
  heartRate : ℚ
  smokingStatus : String
  diabetes : Bool
  hyperlipidemia : Bool
  age : Nat
  gender : String
deriving DecidableEq, Repr

/-- `input_df = pd.DataFrame([{k: latest[k] for k in [...]}])`
(src/app.py lines 153-155). -/
def inputRow (v : Visit) : InputRow :=
  ⟨v.heightCm, v.weightKg, v.bmi, v.systolicBP, v.diastolicBP, v.heartRate,
   v.smokingStatus, v.diabetes, v.hyperlipidemia, v.age, v.gender⟩

/-- The external pre-trained classifier: `predict` yields the class label of
the single row, `predict_proba` yields the class-probability pair
(probability of class 0, probability of class 1).  Either call may raise,
modelled as `Except.error`. -/
structure BinaryClassifier where
  predict : InputRow → Except String Nat
  predictProba : InputRow → Except String (ℚ × ℚ)

/-- The Heart Risk card computation (src/app.py lines 152-158):
load the model (may raise), take
`risk = model.predict_proba(input_df)[0][1] * 100` and
`label = "High Risk" if model.predict(input_df)[0] == 1 else "Low Risk"`.
Returns the displayed (label, percentage); any raise aborts the card. -/
def heartRiskCard (mload : Except String BinaryClassifier) (v : Visit) :
    Except String (String × ℚ) :=
  match mload with
  | .error e => .error e
  | .ok model =>
    match model.predictProba (inputRow v) with
    | .error e => .error e
    | .ok proba =>
      match model.predict (inputRow v) with
      | .error e => .error e
      | .ok pred =>
        .ok (if pred = 1 then "High Risk" else "Low Risk", proba.2 * 100)

/-- The four messages the Insights section can emit
(src/app.py lines 197-204). -/
inductive Insight where
  | aligned
  | urgent
  | goodScoreHighRisk
  | lowScoreLowRisk
deriving DecidableEq, Repr

/-- The consistency check between health score and model label
(src/app.py lines 197-204), an if/elif/elif/else chain whose final `else`
catches every remaining case. -/
def insight (score : ℚ) (label : String) : Insight :=
  if score ≥ 80 ∧ label = "Low Risk" then .aligned
  else if score < 60 ∧ label = "High Risk" then .urgent
  else if score ≥ 80 ∧ label = "High Risk" then .goodScoreHighRisk
  else .lowScoreLowRisk

/-- One conditional `st.write(t)`: the singleton output when the guard
holds, nothing otherwise. -/
def tipIf (c : Prop) [Decidable c] (t : String) : List String :=
  if c then [t] else []

/-- Overview tip strings (src/app.py lines 205-216). -/
def bmiTipO : String := "• High BMI – focus on diet and exercise."

/-- Overview heart-rate tip (src/app.py line 208). -/
def hrTipO : String := "• Elevated heart rate – reduce stress."

/-- Overview blood-pressure tip (src/app.py line 210). -/
def bpTipO : String := "• High BP – reduce salt and monitor."

/-- Overview smoking tip (src/app.py line 212). -/
def smokeTipO : String := "• Smoking – quit to reduce heart risk."

/-- Overview diabetes tip (src/app.py line 214). -/
def diabTipO : String := "• Diabetes – monitor sugar, follow meds."

/-- Overview hyperlipidemia tip (src/app.py line 216). -/
def lipidTipO : String := "• Hyperlipidemia – adopt a low-fat diet."

/-- The Overview recommendation writes, in program order
(src/app.py lines 205-216): BMI checked only upward (`> 25`), then heart
rate, blood pressure, smoking, diabetes, hyperlipidemia. -/
def overviewTips (v : Visit) : List String :=
  tipIf (v.bmi > 25) bmiTipO ++
  (tipIf (v.heartRate > 90) hrTipO ++
  (tipIf (v.systolicBP > 130 ∨ v.diastolicBP > 85) bpTipO ++
  (tipIf (smokingCurrent v.smokingStatus = true) smokeTipO ++
  (tipIf (v.diabetes = true) diabTipO ++
  tipIf (v.hyperlipidemia = true) lipidTipO))))

/-- Visit-history BMI tip (src/app.py line 231). -/
def bmiTipH : String := "• Maintain healthy BMI."

/-- Visit-history heart-rate tip (src/app.py line 233). -/
def hrTipH : String := "• Reduce resting heart rate."

/-- Visit-history blood-pressure tip (src/app.py line 235). -/
def bpTipH : String := "• Manage blood pressure."

/-- Visit-history smoking tip (src/app.py line 237). -/
def smokeTipH : String := "• Stop smoking."

/-- Visit-history hyperlipidemia tip (src/app.py line 239). -/
def lipidTipH : String := "• Monitor cholesterol."

/-- Visit-history diabetes tip (src/app.py line 241). -/
def diabTipH : String := "• Track glucose levels."

/-- The per-visit tips of the Visit History tab, in program order
(src/app.py lines 229-241): BMI both ways, heart rate, blood pressure,
smoking, hyperlipidemia, diabetes. -/
def historyTips (v : Visit) : List String :=
  tipIf (v.bmi < 18.5 ∨ v.bmi > 25) bmiTipH ++
  (tipIf (v.heartRate > 90) hrTipH ++
  (tipIf (v.systolicBP > 130 ∨ v.diastolicBP > 85) bpTipH ++
  (tipIf (smokingCurrent v.smokingStatus = true) smokeTipH ++
  (tipIf (v.hyperlipidemia = true) lipidTipH ++
  tipIf (v.diabetes = true) diabTipH))))

/-- Risk label of a Visit History card
(src/app.py line 227: from the stored `Heart_Disease` column). -/
def historyRisk (v : Visit) : String :=
  if v.heartDisease = 1 then "High" else "Low"

/-- Colour of the Visit History risk badge (src/app.py line 228). -/
def historyRiskColor (v : Visit) : String :=
  if historyRisk v = "High" then "#ff4d4d" else "#4caf50"

/-- Everything the Overview tab derives for one visit once the model calls
have succeeded. -/
structure OverviewOut where
  scoreCardColor : String
  riskLabel : String
  confidencePct : ℚ
  insightMsg : Insight
  tips : List String
deriving Repr

/-- The Overview tab's decision pipeline (src/app.py lines 144-216): the
health-score colour, then the Heart Risk card (whose model load or
inference may raise, aborting the rest of the run), then the consistency
insight and the recommendation tips. -/
def overviewAssess (mload : Except String BinaryClassifier) (v : Visit) :
    Except String OverviewOut :=
  match heartRiskCard mload v with
  | .error e => .error e
  | .ok lr =>
    .ok ⟨scoreColor v.healthScore, lr.1, lr.2,
         insight v.healthScore lr.1, overviewTips v⟩

/-- Date comparison used to sort a patient's visits. -/
def dateLe (a b : Visit) : Bool := a.date ≤ b.date

/-- `df[df["patient"].astype(str) == patient_id].sort_values("Date")`
(src/app.py line 63): keep the rows whose stringified patient id matches,
sorted ascending by date. -/
def findPatient (db : List Visit) (pid : String) : List Visit :=
  (db.filter fun v => toString v.patient == pid).mergeSort dateLe

/-- `latest = patient_df.iloc[-1]` (src/app.py line 64): the last element
of the date-sorted visit list, if any. -/
def latestVisit (db : List Visit) (pid : String) : Option Visit :=
  (findPatient db pid).getLast?

/-- The stringified patient column `df["patient"].astype(str).values`
(src/app.py line 55). -/
def patientIds (db : List Visit) : List String :=
  db.map fun v => toString v.patient

/-- The Streamlit session state: `st.session_state.logged_in` and
`st.session_state.patient_id` (src/app.py lines 47-49). -/
structure Session where
  loggedIn : Bool
  patientId : String
deriving DecidableEq, Repr

/-- Initial session state (src/app.py lines 47-49). -/
def initSession : Session := ⟨false, ""⟩

/-- The two session-changing user actions: pressing Login with some text
(src/app.py lines 54-60) and pressing Logout (src/app.py lines 253-256). -/
inductive Action where
  | login (input : String)
  | logout

/-- One session transition: login succeeds only when the entered id occurs
in the stringified patient column, otherwise the state is unchanged;
logout clears the session. -/
def step (db : List Visit) (s : Session) : Action → Session
  | .login input => if input ∈ patientIds db then ⟨true, input⟩ else s
  | .logout => ⟨false, ""⟩

/-- The session reached from the initial state by a sequence of actions. -/
def runSession (db : List Visit) (acts : List Action) : Session :=
  acts.foldl (step db) initSession

/-! ### Helper lemmas -/

/-- Membership in one conditional write followed by the remaining writes. -/
theorem mem_tipIf_append (c : Prop) [Decidable c] (t s : String)
    (rest : List String) :
    s ∈ tipIf c t ++ rest ↔ (c ∧ s = t) ∨ s ∈ rest := by
  by_cases h : c <;> simp [tipIf, h]

/-- Membership in a final conditional write. -/
theorem mem_tipIf (c : Prop) [Decidable c] (t s : String) :
    s ∈ tipIf c t ↔ c ∧ s = t := by
  by_cases h : c <;> simp [tipIf, h]

/-- The Python substring test is exactly list-infix containment. -/
theorem containsSub_iff_infix (needle hay : List Char) :
    containsSub needle hay = true ↔ needle <:+: hay := by
  induction hay with
  | nil =>
      simp [containsSub, List.isPrefixOf_iff_prefix, List.infix_nil]
  | cons c rest ih =>
      simp [containsSub, List.isPrefixOf_iff_prefix, List.infix_cons_iff, ih]

/-- The status "Never" does not contain "current". -/
theorem smokingCurrent_never : smokingCurrent "Never" = false := by decide

/-! ### C1: the consistency check -/

/-- C1 counterexample: at a middle-band score of 70 with a high-risk
prediction the check does not return a neutral outcome; it emits the
"low score but currently low risk" message even though 70 is not below 60,
so that message is not restricted to score < 60 with a low prediction. -/
theorem insight_midband_emits_lowScoreLowRisk :
    insight 70 "High Risk" = Insight.lowScoreLowRisk ∧ ¬((70:ℚ) < 60) := by
  constructor
  · norm_num [insight]
  · norm_num

/-- C1 (amended): the consistency check is a total function (it never
raises), but there is no neutral outcome: the final `else` reuses the
"low score but currently low risk" message, which therefore fires for every
middle-band score in [60, 80) and also whenever the prediction is low with
score below 80; the other three messages match the spec's 2x2 table. -/
theorem insight_decision_table (score : ℚ) (high : Bool) :
    (insight score (if high then "High Risk" else "Low Risk") =
        Insight.lowScoreLowRisk ↔
      ((high = false ∧ score < 80) ∨ (high = true ∧ 60 ≤ score ∧ score < 80))) ∧
    (insight score (if high then "High Risk" else "Low Risk") =
        Insight.aligned ↔ (high = false ∧ 80 ≤ score)) ∧
    (insight score (if high then "High Risk" else "Low Risk") =
        Insight.urgent ↔ (high = true ∧ score < 60)) ∧
    (insight score (if high then "High Risk" else "Low Risk") =
        Insight.goodScoreHighRisk ↔ (high = true ∧ 80 ≤ score)) := by
  by_cases h80 : (80:ℚ) ≤ score <;> by_cases h60 : score < 60 <;>
    cases high <;>
      simp [insight, ge_iff_le, h80, h60] <;>
        first | linarith | (constructor <;> linarith)

/-! ### C8: risk banding and its colours -/

/-- A visit with health score 90 whose stored `Heart_Disease` flag is 1. -/
def vScore90Hd : Visit :=
  ⟨3, 0, 60, "M", 170, 80, 24, 120, 80, 70, "Never", false, false, 1, 90⟩

/-- The same vitals and health score 90 with `Heart_Disease` 0. -/
def vScore90Ok : Visit :=
  ⟨3, 1, 60, "M", 170, 80, 24, 120, 80, 70, "Never", false, false, 0, 90⟩

/-- C8 counterexample: two visits with the same health score 90 receive
different risk labels in the Visit History tab, and the score-90 visit with
`Heart_Disease = 1` is labelled "High"/red although its score is at least
80 — the visit-history band is not a function of the health score. -/
theorem history_risk_ignores_health_score :
    vScore90Hd.healthScore = vScore90Ok.healthScore ∧
    historyRisk vScore90Hd = "High" ∧
    historyRisk vScore90Ok = "Low" ∧
    historyRiskColor vScore90Hd = "#ff4d4d" ∧
    (80:ℚ) ≤ vScore90Hd.healthScore := by
  refine ⟨rfl, by decide, by decide, by decide, by norm_num [vScore90Hd]⟩

/-- C8 (amended): the Overview donut colour is a function of the health
score alone with the 80/60 cutoffs (green iff score ≥ 80, amber iff
60 ≤ score < 80, red iff score < 60), and it carries no Low/Medium/High
text; the only textual risk band, in the Visit History tab, is derived
from the stored `Heart_Disease` column ("High"/red iff it equals 1, else
"Low"/green), independent of the health score. -/
theorem score_color_and_history_risk (score : ℚ) (v : Visit) :
    (scoreColor score = "#4caf50" ↔ 80 ≤ score) ∧
    (scoreColor score = "#ffa94d" ↔ 60 ≤ score ∧ score < 80) ∧
    (scoreColor score = "#ff4d4d" ↔ score < 60) ∧
    (historyRisk v = "High" ↔ v.heartDisease = 1) ∧
    (historyRiskColor v = if v.heartDisease = 1 then "#ff4d4d" else "#4caf50") := by
  by_cases h80 : (80:ℚ) ≤ score <;> by_cases h60 : (60:ℚ) ≤ score <;>
    by_cases hd : v.heartDisease = 1 <;>
      simp [scoreColor, historyRisk, historyRiskColor, ge_iff_le, h80, h60, hd] <;>
        linarith

/-! ### C3: the BMI tip -/

/-- An underweight visit: BMI 17, every other vital unremarkable. -/
def vBmi17 : Visit :=
  ⟨1, 0, 40, "F", 170, 49, 17, 120, 80, 70, "Never", false, false, 0, 85⟩

/-- C3 counterexample: a visit with BMI 17 is underweight, yet the Overview
recommendation list contains no BMI tip at all, because the Overview only
tests `BMI > 25` — so the claimed iff fails at BMI 17. -/
theorem overview_misses_underweight_bmi_tip :
    vBmi17.bmi < 18.5 ∧ bmiTipO ∉ overviewTips vBmi17 := by
  constructor
  · norm_num [vBmi17]
  · norm_num [overviewTips, tipIf, vBmi17, smokingCurrent_never]

/-- C3 (amended): the Visit History tip list contains its BMI tip iff
`bmi < 18.5 or bmi > 25`, independent of the other fields; the Overview
list contains its BMI tip iff `bmi > 25` only, so an underweight BMI
triggers the tip in the history cards but not in the Overview. -/
theorem bmi_tip_iff (v : Visit) :
    (bmiTipH ∈ historyTips v ↔ (v.bmi < 18.5 ∨ v.bmi > 25)) ∧
    (bmiTipO ∈ overviewTips v ↔ v.bmi > 25) := by
  constructor <;>
    simp [historyTips, overviewTips, mem_tipIf_append, mem_tipIf,
      bmiTipH, hrTipH, bpTipH, smokeTipH, lipidTipH, diabTipH,
      bmiTipO, hrTipO, bpTipO, smokeTipO, lipidTipO, diabTipO]

/-! ### C5: the smoking tip -/

/-- A visit whose smoking status contains "current" only in the middle of
the word. -/
def vRecurrent : Visit :=
  ⟨2, 0, 50, "M", 175, 80, 22, 120, 80, 70, "Recurrent", false, false, 0, 85⟩

/-- The status "Recurrent" does contain "current" after lower-casing. -/
theorem smokingCurrent_recurrent : smokingCurrent "Recurrent" = true := by
  decide

/-- C5 counterexample: the status "Recurrent" does not begin with "current"
after lower-casing, yet both smoking tips are produced, because the code
tests substring containment rather than a prefix. -/
theorem smoking_tip_fires_on_recurrent :
    "current".data.isPrefixOf (pyLower "Recurrent").data = false ∧
    smokeTipH ∈ historyTips vRecurrent ∧
    smokeTipO ∈ overviewTips vRecurrent := by
  refine ⟨by decide, ?_, ?_⟩ <;>
    norm_num [historyTips, overviewTips, mem_tipIf_append, mem_tipIf,
      vRecurrent, smokingCurrent_recurrent,
      bmiTipH, hrTipH, bpTipH, smokeTipH, lipidTipH, diabTipH,
      bmiTipO, hrTipO, bpTipO, smokeTipO, lipidTipO, diabTipO]

/-- C5 (amended): each smoking tip appears iff the lower-cased smoking
status contains "current" as a substring anywhere in the string — a status
that merely contains "current" in the middle also triggers the tip. -/
theorem smoking_tip_iff_contains (v : Visit) :
    (smokeTipH ∈ historyTips v ↔
      "current".data <:+: (pyLower v.smokingStatus).data) ∧
    (smokeTipO ∈ overviewTips v ↔
      "current".data <:+: (pyLower v.smokingStatus).data) := by
  have h := containsSub_iff_infix "current".data (pyLower v.smokingStatus).data
  constructor <;>
    simp [historyTips, overviewTips, mem_tipIf_append, mem_tipIf,
      smokingCurrent, ← h,
      bmiTipH, hrTipH, bpTipH, smokeTipH, lipidTipH, diabTipH,
      bmiTipO, hrTipO, bpTipO, smokeTipO, lipidTipO, diabTipO]

/-! ### C6: behaviour when no rule triggers -/

/-- A visit triggering no preventive rule. -/
def vHealthy : Visit :=
  ⟨5, 0, 30, "F", 170, 65, 22, 120, 80, 70, "Never", false, false, 0, 90⟩

/-- A second rule-free visit, with different unremarkable vitals. -/
def vHealthy2 : Visit :=
  ⟨6, 0, 45, "M", 180, 75, 23, 125, 80, 88, "Former", false, false, 0, 72⟩

/-- C6 counterexample: when no preventive rule triggers, both tip lists are
empty — no "no immediate action needed" tip is produced anywhere. -/
theorem no_trigger_gives_empty_lists :
    historyTips vHealthy = [] ∧ overviewTips vHealthy = [] := by
  constructor <;>
    norm_num [historyTips, overviewTips, tipIf, vHealthy, smokingCurrent_never]

/-- C6 (amended): when no preventive rule triggers, the produced tip list
is empty at both generation sites; the code has no fallback tip. -/
theorem no_trigger_tips_empty (v : Visit)
    (h1 : 18.5 ≤ v.bmi) (h2 : v.bmi ≤ 25) (h3 : v.heartRate ≤ 90)
    (h4 : v.systolicBP ≤ 130) (h5 : v.diastolicBP ≤ 85)
    (h6 : smokingCurrent v.smokingStatus = false)
    (h7 : v.hyperlipidemia = false) (h8 : v.diabetes = false) :
    historyTips v = [] ∧ overviewTips v = [] := by
  have hb : ¬(v.bmi < 18.5 ∨ v.bmi > 25) := by rintro (h | h) <;> linarith
  have hbo : ¬(v.bmi > 25) := by linarith
  have hh : ¬(v.heartRate > 90) := by linarith
  have hbp : ¬(v.systolicBP > 130 ∨ v.diastolicBP > 85) := by
    rintro (h | h) <;> linarith
  constructor <;>
    simp [historyTips, overviewTips, tipIf, hb, hbo, hh, hbp,
      h1, h2, h3, h4, h5, h6, h7, h8]

/-- C6 witness: the amended statement at a concrete rule-free visit. -/
theorem no_trigger_tips_empty_witness :
    historyTips vHealthy2 = [] ∧ overviewTips vHealthy2 = [] :=
  no_trigger_tips_empty vHealthy2 (by norm_num [vHealthy2])
    (by norm_num [vHealthy2]) (by norm_num [vHealthy2])
    (by norm_num [vHealthy2]) (by norm_num [vHealthy2])
    (by decide) rfl rfl

/-! ### C7: order of the triggered tips -/

/-- A visit with both hyperlipidemia and diabetes and no other trigger. -/
def vBothCond : Visit :=
  ⟨4, 0, 55, "F", 165, 70, 22, 120, 80, 70, "Never", true, true, 0, 85⟩

/-- C7 counterexample: with both conditions present and nothing else, the
Overview writes the diabetes tip before the hyperlipidemia tip while the
Visit History writes them in the opposite order — the hyperlipidemia tip
does not precede the diabetes tip in the Overview, and the two generation
sites do not share one order. -/
theorem overview_diabetes_precedes_lipid :
    overviewTips vBothCond = [diabTipO, lipidTipO] ∧
    historyTips vBothCond = [lipidTipH, diabTipH] := by
  constructor <;>
    norm_num [overviewTips, historyTips, tipIf, vBothCond, smokingCurrent_never]

/-- A conditional write followed by later writes stays a sublist of the
full write sequence. -/
theorem tipIf_append_sublist (c : Prop) [Decidable c] (t : String)
    {l l' : List String} (h : List.Sublist l l') :
    List.Sublist (tipIf c t ++ l) (t :: l') := by
  by_cases hc : c
  · simpa [tipIf, hc] using List.Sublist.cons₂ t h
  · simpa [tipIf, hc] using List.Sublist.cons t h

/-- A final conditional write is a sublist of its singleton. -/
theorem tipIf_sublist (c : Prop) [Decidable c] (t : String) :
    List.Sublist (tipIf c t) [t] := by
  by_cases hc : c <;> simp [tipIf, hc]

/-- C7 (amended): each site emits its triggered tips in its own fixed
program order — Visit History: BMI, heart rate, blood pressure, smoking,
hyperlipidemia, diabetes; Overview: BMI, heart rate, blood pressure,
smoking, diabetes, hyperlipidemia — and when both conditions trigger, the
hyperlipidemia tip precedes the diabetes tip only in the Visit History
list, while the Overview emits them in the opposite order. -/
theorem tips_fixed_order (v : Visit) :
    List.Sublist (historyTips v)
      [bmiTipH, hrTipH, bpTipH, smokeTipH, lipidTipH, diabTipH] ∧
    List.Sublist (overviewTips v)
      [bmiTipO, hrTipO, bpTipO, smokeTipO, diabTipO, lipidTipO] ∧
    (v.hyperlipidemia = true → v.diabetes = true →
      (∃ p, historyTips v = p ++ [lipidTipH, diabTipH]) ∧
      (∃ q, overviewTips v = q ++ [diabTipO, lipidTipO])) := by
  unfold historyTips overviewTips
  refine ⟨?_, ?_, fun hl hd => ⟨?_, ?_⟩⟩
  · exact tipIf_append_sublist _ _ (tipIf_append_sublist _ _
      (tipIf_append_sublist _ _ (tipIf_append_sublist _ _
        (tipIf_append_sublist _ _ (tipIf_sublist _ _)))))
  · exact tipIf_append_sublist _ _ (tipIf_append_sublist _ _
      (tipIf_append_sublist _ _ (tipIf_append_sublist _ _
        (tipIf_append_sublist _ _ (tipIf_sublist _ _)))))
  · exact ⟨tipIf (v.bmi < 18.5 ∨ v.bmi > 25) bmiTipH ++
      (tipIf (v.heartRate > 90) hrTipH ++
        (tipIf (v.systolicBP > 130 ∨ v.diastolicBP > 85) bpTipH ++
          tipIf (smokingCurrent v.smokingStatus = true) smokeTipH)),
      by simp [tipIf, hl, hd]⟩
  · exact ⟨tipIf (v.bmi > 25) bmiTipO ++
      (tipIf (v.heartRate > 90) hrTipO ++
        (tipIf (v.systolicBP > 130 ∨ v.diastolicBP > 85) bpTipO ++
          tipIf (smokingCurrent v.smokingStatus = true) smokeTipO)),
      by simp [tipIf, hl, hd]⟩

/-- C7 witness: the order facts of the amended statement at a visit with
both conditions. -/
theorem tips_fixed_order_witness :
    (∃ p, historyTips vBothCond = p ++ [lipidTipH, diabTipH]) ∧
    (∃ q, overviewTips vBothCond = q ++ [diabTipO, lipidTipO]) :=
  (tips_fixed_order vBothCond).2.2 rfl rfl

/-! ### C2: failure semantics of the model -/

/-- A visit used to exercise the model-failure path. -/
def vModelFail : Visit :=
  ⟨8, 0, 52, "M", 172, 78, 26, 135, 88, 95, "Current smoker", true, true, 0, 55⟩

/-- C2 counterexample: when the model artifact fails to load, the whole
Overview assessment is the raised error — no risk band, no tip list and no
Unavailable marking are returned to the caller. -/
theorem model_load_failure_aborts_overview :
    overviewAssess (Except.error "model file missing") vModelFail =
      Except.error "model file missing" := rfl

/-- A classifier whose inference raises. -/
def mRaises : BinaryClassifier :=
  ⟨fun _ => Except.error "inference failed",
   fun _ => Except.error "inference failed"⟩

/-- C2 (amended): there is no graceful degradation: whether the model
artifact is unavailable or its probability call raises, the exception
propagates out of the Overview assessment, which returns neither the
health-score band nor the tip list. -/
theorem model_failure_propagates (v : Visit) (e : String)
    (m : BinaryClassifier)
    (hp : m.predictProba (inputRow v) = Except.error e) :
    overviewAssess (Except.error e) v = Except.error e ∧
    overviewAssess (Except.ok m) v = Except.error e := by
  constructor
  · rfl
  · simp [overviewAssess, heartRiskCard, hp]

/-- C2 witness: the amended statement at a concrete visit and a concrete
raising classifier. -/
theorem model_failure_propagates_witness :
    overviewAssess (Except.error "inference failed") vModelFail =
      Except.error "inference failed" ∧
    overviewAssess (Except.ok mRaises) vModelFail =
      Except.error "inference failed" :=
  model_failure_propagates vModelFail "inference failed" mRaises rfl

/-! ### C4: the displayed confidence -/

/-- A visit used to exercise the confidence display. -/
def vConf : Visit :=
  ⟨9, 0, 48, "F", 168, 62, 22, 118, 76, 72, "Never", false, false, 0, 82⟩

/-- A classifier that predicts class 0 (low risk), with class probabilities
(0.7, 0.3). -/
def mLowRisk : BinaryClassifier :=
  ⟨fun _ => Except.ok 0, fun _ => Except.ok (7/10, 3/10)⟩

/-- The spec's confidence: the probability of the predicted class times
100. -/
def specConfidence (m : BinaryClassifier) (v : Visit) : Except String ℚ :=
  match m.predict (inputRow v), m.predictProba (inputRow v) with
  | .error e, _ => .error e
  | .ok _, .error e => .error e
  | .ok pred, .ok proba => .ok ((if pred = 1 then proba.2 else proba.1) * 100)

/-- C4 counterexample: with a low-risk prediction at class probabilities
(0.7, 0.3) the dashboard shows 30 — the high-risk class probability times
100 — while the probability of the predicted class times 100 is 70. -/
theorem confidence_is_class1_not_predicted :
    heartRiskCard (Except.ok mLowRisk) vConf = Except.ok ("Low Risk", 30) ∧
    specConfidence mLowRisk vConf = Except.ok 70 ∧ (30:ℚ) ≠ 70 := by
  refine ⟨?_, ?_, by norm_num⟩
  · norm_num [heartRiskCard, mLowRisk]
  · norm_num [specConfidence, mLowRisk]

/-- C4 (amended): the displayed percentage is always the class-1
(high-risk) probability times 100: it equals the spec's predicted-class
confidence when the prediction is class 1, while for any other prediction
(low risk) the spec's confidence is the class-0 probability times 100,
which is 100 minus the displayed value whenever the two class
probabilities sum to 1. -/
theorem confidence_always_class1 (m : BinaryClassifier) (v : Visit)
    (pred : Nat) (p0 p1 : ℚ)
    (hpred : m.predict (inputRow v) = Except.ok pred)
    (hproba : m.predictProba (inputRow v) = Except.ok (p0, p1)) :
    heartRiskCard (Except.ok m) v =
      Except.ok (if pred = 1 then "High Risk" else "Low Risk", p1 * 100) ∧
    (pred = 1 → specConfidence m v = Except.ok (p1 * 100)) ∧
    (pred ≠ 1 → specConfidence m v = Except.ok (p0 * 100)) ∧
    (p0 + p1 = 1 → p0 * 100 = 100 - p1 * 100) := by
  refine ⟨?_, fun h1 => ?_, fun hne => ?_, fun hsum => by linarith⟩
  · simp [heartRiskCard, hpred, hproba]
  · simp [specConfidence, hpred, hproba, h1]
  · simp [specConfidence, hpred, hproba, hne]

/-- C4 witness: the amended statement's low-risk branch at the concrete
classifier. -/
theorem confidence_always_class1_witness :
    specConfidence mLowRisk vConf = Except.ok ((7:ℚ)/10 * 100) :=
  (confidence_always_class1 mLowRisk vConf 0 (7/10) (3/10) rfl rfl).2.2.1
    (by decide)

/-! ### C9: sorted visit history and the latest visit -/

/-- The date order is transitive. -/
theorem dateLe_trans (a b c : Visit) (hab : dateLe a b = true)
    (hbc : dateLe b c = true) : dateLe a c = true := by
  simp [dateLe] at hab hbc ⊢
  omega

/-- The date order is total. -/
theorem dateLe_total (a b : Visit) : (dateLe a b || dateLe b a) = true := by
  simp [dateLe]
  omega

/-- A successful `getLast?` returns a member of the list. -/
theorem mem_of_getLast?_eq {α : Type} {l : List α} {x : α}
    (h : l.getLast? = some x) : x ∈ l := by
  obtain ⟨hne, rfl⟩ :=
    List.mem_getLast?_eq_getLast (l := l) (x := x) (by simp [Option.mem_def, h])
  exact List.getLast_mem hne

/-- In a list that is pairwise related by a reflexive relation, every
element relates to the last element. -/
theorem pairwise_rel_getLast {α : Type} {R : α → α → Prop}
    (hrefl : ∀ a, R a a) :
    ∀ l : List α, l.Pairwise R → ∀ v, v ∈ l → ∀ x, l.getLast? = some x → R v x := by
  intro l
  induction l with
  | nil => intro _ v hv; simp at hv
  | cons a t ih =>
      intro hp v hv x hx
      cases t with
      | nil =>
          simp at hv hx
          subst hv
          subst hx
          exact hrefl _
      | cons b t' =>
          rw [List.getLast?_cons_cons] at hx
          rcases List.mem_cons.mp hv with rfl | hv'
          · exact (List.pairwise_cons.mp hp).1 x (mem_of_getLast?_eq hx)
          · exact ih (List.pairwise_cons.mp hp).2 v hv' x hx

/-- C9: `findPatient` returns the patient's rows sorted ascending by date,
and the visit the overview uses as the latest — the last element of that
sorted sequence — is chronologically last: every returned visit's date is
at most its date. -/
theorem findPatient_sorted_and_latest (db : List Visit) (pid : String) :
    (findPatient db pid).Pairwise (fun a b => a.date ≤ b.date) ∧
    (∀ v, v ∈ findPatient db pid → ∀ l, latestVisit db pid = some l →
      v.date ≤ l.date) := by
  have hs := List.sorted_mergeSort dateLe_trans dateLe_total
    (db.filter fun v => toString v.patient == pid)
  have hp : (findPatient db pid).Pairwise (fun a b => a.date ≤ b.date) := by
    refine List.Pairwise.imp ?_ hs
    intro a b h
    simpa [dateLe] using h
  refine ⟨hp, ?_⟩
  intro v hv l hl
  exact @pairwise_rel_getLast Visit (fun a b => a.date ≤ b.date)
    (fun a => le_refl a.date) _ hp v hv l hl

/-- The later row of patient 7, stored first in the dataset. -/
def visitMar : Visit :=
  ⟨7, 20240301, 33, "F", 160, 60, 22, 120, 80, 72, "Never", false, false, 0, 55⟩

/-- The earlier row of patient 7, stored second in the dataset. -/
def visitJan : Visit :=
  ⟨7, 20240115, 33, "F", 160, 60, 22, 120, 80, 72, "Never", false, false, 0, 90⟩

/-- A dataset holding patient 7's rows newest-first. -/
def dbOutOfOrder : List Visit := [visitMar, visitJan]

/-- C9 witness: on a two-row dataset stored newest-first, the returned
sequence is sorted and the January row's date is at most the date of the
latest (March) visit. -/
theorem findPatient_sorted_and_latest_witness :
    (findPatient dbOutOfOrder "7").Pairwise (fun a b => a.date ≤ b.date) ∧
    visitJan.date ≤ visitMar.date :=
  ⟨(findPatient_sorted_and_latest dbOutOfOrder "7").1,
   (findPatient_sorted_and_latest dbOutOfOrder "7").2 visitJan
     (List.mem_mergeSort.mpr (by decide)) visitMar
     (by
       have hfil : List.filter (fun v => toString v.patient == "7") dbOutOfOrder
           = [visitMar, visitJan] := by decide
       have hsrt : List.mergeSort [visitMar, visitJan] dateLe
           = [visitJan, visitMar] := by
         simp [List.mergeSort, dateLe, visitMar, visitJan]
       show (findPatient dbOutOfOrder "7").getLast? = some visitMar
       unfold findPatient
       rw [hfil, hsrt]
       rfl)⟩

/-! ### C10: login membership makes the dashboard safe -/

/-- Any action sequence preserves the invariant that a logged-in session's
patient id occurs in the stringified patient column. -/
theorem foldl_step_invariant (db : List Visit) (acts : List Action) :
    ∀ s : Session, (s.loggedIn = true → s.patientId ∈ patientIds db) →
      (acts.foldl (step db) s).loggedIn = true →
      (acts.foldl (step db) s).patientId ∈ patientIds db := by
  induction acts with
  | nil => intro s hs; exact hs
  | cons a rest ih =>
      intro s hs
      simp only [List.foldl_cons]
      apply ih
      cases a with
      | login input =>
          by_cases h : input ∈ patientIds db
          · simp [step, h]
          · simpa [step, h] using hs
      | logout => simp [step]

/-- C10: in every session state reachable from the initial one, the
dashboard is shown only when logged in, and then the patient id equals the
string form of some value of the dataset's patient column, so the filtered
visit sequence is non-empty and taking its last element always succeeds:
the no-visits condition is unreachable. -/
theorem login_guards_dashboard (db : List Visit) (acts : List Action)
    (h : (runSession db acts).loggedIn = true) :
    (runSession db acts).patientId ∈ patientIds db ∧
    findPatient db (runSession db acts).patientId ≠ [] ∧
    (latestVisit db (runSession db acts).patientId).isSome = true := by
  have hmem : (runSession db acts).patientId ∈ patientIds db :=
    foldl_step_invariant db acts initSession (by simp [initSession]) h
  obtain ⟨v, hv, hf⟩ := List.mem_map.mp (by simpa [patientIds] using hmem)
  have hvf : v ∈ db.filter
      (fun w => toString w.patient == (runSession db acts).patientId) :=
    List.mem_filter.mpr ⟨hv, by simp [hf]⟩
  have hvm : v ∈ findPatient db (runSession db acts).patientId :=
    List.mem_mergeSort.mpr hvf
  have hne : findPatient db (runSession db acts).patientId ≠ [] :=
    List.ne_nil_of_mem hvm
  exact ⟨hmem, hne, List.getLast?_isSome.mpr hne⟩

/-- The only row of the witness dataset, patient id 1. -/
def vLogin : Visit :=
  ⟨1, 5, 28, "F", 170, 60, 21, 115, 75, 68, "Never", false, false, 0, 95⟩

/-- A one-row dataset for the login walk-through. -/
def dbLogin : List Visit := [vLogin]

/-- C10 witness: after logging in with "1" against the one-row dataset,
the session is logged in and the dashboard lookup is safe. -/
theorem login_guards_dashboard_witness :
    (runSession dbLogin [Action.login "1"]).patientId ∈ patientIds dbLogin ∧
    findPatient dbLogin (runSession dbLogin [Action.login "1"]).patientId ≠ [] ∧
    (latestVisit dbLogin
      (runSession dbLogin [Action.login "1"]).patientId).isSome = true :=
  login_guards_dashboard dbLogin [Action.login "1"] (by decide)

end HealthPredict
